import Mathlib

/-!
Shallow embedding of the sports-notifications core: the normalized Game model,
the Event model with deterministic identifiers, the pure event detector, the
subscriber-preference filter, the FCM batch dispatcher, and the notification
engine's orchestration loop.  Definitions mirror the TypeScript source; wall
clock and I/O collaborators (Firestore, FCM gateway) are passed in explicitly
as parameters so the logic stays pure.
-/

namespace SportsNotif

/-- Game lifecycle status, per the `GameStatus` enum of the Game model. -/
inductive GameStatus where
  | SCHEDULED
  | LIVE
  | FINAL
  | POSTPONED
  | CANCELLED
deriving DecidableEq

/-- Supported sports, per the `Sport` enum of the Game model. -/
inductive Sport where
  | NBA
  | NFL
  | MLB
  | NHL
  | SOCCER
deriving DecidableEq

/-- Normalized flat game snapshot, per the `Game` interface (flattened model).
Dates are modelled as `Nat` timestamps. -/
structure Game where
  id : String
  sport : Sport
  externalId : String
  scheduledTime : Nat
  lastUpdated : Nat
  status : GameStatus
  statusDetail : Option String := none
  homeTeam : String
  homeAbbr : String
  homeScore : Nat
  homeRecord : Option String := none
  awayTeam : String
  awayAbbr : String
  awayScore : Nat
  awayRecord : Option String := none
  period : Option Nat := none
  clock : Option String := none
  isPlayoff : Option Bool := none
  notificationsSent : Option (List String) := none
deriving DecidableEq

/-- `getPointDifferential`: absolute score differential of a game. -/
def getPointDifferential (game : Game) : Nat :=
  Int.natAbs ((game.homeScore : Int) - (game.awayScore : Int))

/-- `isGameLive`: the game is in progress. -/
def isGameLive (game : Game) : Bool :=
  game.status = GameStatus.LIVE

/-- `hasGameStarted`: the game is past the scheduled state. -/
def hasGameStarted (game : Game) : Bool :=
  game.status ≠ GameStatus.SCHEDULED && game.status ≠ GameStatus.POSTPONED

/-- Event kinds, per the `EventType` enum of the Event model. -/
inductive EventType where
  | GAME_START
  | GAME_END
  | GAME_POSTPONED
  | GAME_CANCELLED
  | CLOSE_GAME
  | BLOWOUT
  | COMEBACK
  | UPSET
  | RIVALRY_GAME
  | PLAYOFF_GAME
  | HALFTIME
  | FINAL_PERIOD
  | OVERTIME
  | CUSTOM
deriving DecidableEq, Fintype

/-- The string value of each `EventType` enum member in the source. -/
def EventType.str : EventType → String
  | .GAME_START => "GAME_START"
  | .GAME_END => "GAME_END"
  | .GAME_POSTPONED => "GAME_POSTPONED"
  | .GAME_CANCELLED => "GAME_CANCELLED"
  | .CLOSE_GAME => "CLOSE_GAME"
  | .BLOWOUT => "BLOWOUT"
  | .COMEBACK => "COMEBACK"
  | .UPSET => "UPSET"
  | .RIVALRY_GAME => "RIVALRY_GAME"
  | .PLAYOFF_GAME => "PLAYOFF_GAME"
  | .HALFTIME => "HALFTIME"
  | .FINAL_PERIOD => "FINAL_PERIOD"
  | .OVERTIME => "OVERTIME"
  | .CUSTOM => "CUSTOM"

/-- Event priority, per the numeric `EventPriority` enum. -/
inductive EventPriority where
  | LOW
  | MEDIUM
  | HIGH
  | CRITICAL
deriving DecidableEq

/-- Numeric value of a priority (`LOW = 1 .. CRITICAL = 4`). -/
def EventPriority.toNat : EventPriority → Nat
  | .LOW => 1
  | .MEDIUM => 2
  | .HIGH => 3
  | .CRITICAL => 4

/-- Typed rendering of the open `metadata` record attached to events; only the
fields the detector actually writes are represented. -/
structure EventMetadata where
  scheduledTime : Option Nat := none
  finalScore : Option (Nat × Nat) := none
  differential : Option Nat := none
  leadingTeam : Option String := none
  period : Option Nat := none
  score : Option (Nat × Nat) := none
deriving DecidableEq

/-- Detected event, per the `Event` interface.  `detectedAt`/`occurredAt` are
`Nat` timestamps; `targetTeams` renders `targetAudience.teams`. -/
structure Event where
  id : String
  type : EventType
  priority : EventPriority
  gameId : String
  sport : Sport
  detectedAt : Nat
  occurredAt : Option Nat := none
  title : String
  message : String
  notified : Bool
  notifiedAt : Option Nat := none
  targetTeams : List String := []
  metadata : EventMetadata := {}
deriving DecidableEq

/-- `generateEventId`: deterministic event identifier
`gameId _ eventType (_ suffix)?`, joining the parts with an underscore. -/
def generateEventId (gameId : String) (eventType : EventType)
    (suffix : Option String) : String :=
  match suffix with
  | none => gameId ++ ("_") ++ eventType.str
  | some s => gameId ++ ("_") ++ eventType.str ++ ("_") ++ s

namespace EVENT_THRESHOLDS

/-- Points ahead to be considered a blowout. -/
def BLOWOUT_POINT_DIFFERENTIAL : Nat := 20

/-- Points within to be considered close. -/
def CLOSE_GAME_POINT_DIFFERENTIAL : Nat := 5

end EVENT_THRESHOLDS

/-- `detectGameStart`: fires when the game was not live before and is live
now (`oldGame?.status !== LIVE && newGame.status === LIVE`).  The wall clock
`now` stands for `new Date()`. -/
def detectGameStart (oldGame : Option Game) (newGame : Game) (now : Nat) :
    Option Event :=
  if oldGame.map Game.status ≠ some GameStatus.LIVE ∧
      newGame.status = GameStatus.LIVE then
    some {
      id := generateEventId newGame.id EventType.GAME_START none
      type := EventType.GAME_START
      priority := EventPriority.HIGH
      gameId := newGame.id
      sport := newGame.sport
      detectedAt := now
      occurredAt := some now
      title := "Game Started"
      message := newGame.awayAbbr ++ (" @ ") ++ newGame.homeAbbr ++ (" is now live!")
      notified := false
      targetTeams := [newGame.homeAbbr, newGame.awayAbbr]
      metadata := { scheduledTime := some newGame.scheduledTime } }
  else none

/-- `detectGameEnd`: fires when the game was live before and is final now;
the message names the winner or a tie by score comparison. -/
def detectGameEnd (oldGame : Option Game) (newGame : Game) (now : Nat) :
    Option Event :=
  if oldGame.map Game.status = some GameStatus.LIVE ∧
      newGame.status = GameStatus.FINAL then
    let homeScore := newGame.homeScore
    let awayScore := newGame.awayScore
    let message :=
      if homeScore > awayScore then
        newGame.homeAbbr ++ (" defeats ") ++ newGame.awayAbbr ++ (" ") ++
          toString homeScore ++ ("-") ++ toString awayScore
      else if awayScore > homeScore then
        newGame.awayAbbr ++ (" defeats ") ++ newGame.homeAbbr ++ (" ") ++
          toString awayScore ++ ("-") ++ toString homeScore
      else
        newGame.awayAbbr ++ (" and ") ++ newGame.homeAbbr ++ (" tie ") ++
          toString homeScore ++ ("-") ++ toString awayScore
    some {
      id := generateEventId newGame.id EventType.GAME_END none
      type := EventType.GAME_END
      priority := EventPriority.HIGH
      gameId := newGame.id
      sport := newGame.sport
      detectedAt := now
      occurredAt := some now
      title := "Final Score"
      message := message
      notified := false
      targetTeams := [newGame.homeAbbr, newGame.awayAbbr]
      metadata := { finalScore := some (homeScore, awayScore) } }
  else none

/-- `detectBlowout`: fires when the current differential is truthy (nonzero)
and at or above the blowout threshold, unless the old game was already a
blowout (`oldDifferential && oldDifferential >= threshold`, where a null or
zero old differential is falsy). -/
def detectBlowout (oldGame : Option Game) (newGame : Game) (now : Nat) :
    Option Event :=
  let differential := getPointDifferential newGame
  if differential = 0 ∨
      differential < EVENT_THRESHOLDS.BLOWOUT_POINT_DIFFERENTIAL then
    none
  else
    let oldDifferential := oldGame.map getPointDifferential
    let wasAlreadyBlowout : Bool :=
      match oldDifferential with
      | some d => d ≠ 0 && EVENT_THRESHOLDS.BLOWOUT_POINT_DIFFERENTIAL ≤ d
      | none => false
    if wasAlreadyBlowout then none
    else
      let homeScore := newGame.homeScore
      let awayScore := newGame.awayScore
      let leadingTeamAbbr :=
        if homeScore > awayScore then newGame.homeAbbr else newGame.awayAbbr
      let trailingTeamAbbr :=
        if homeScore > awayScore then newGame.awayAbbr else newGame.homeAbbr
      some {
        id := generateEventId newGame.id EventType.BLOWOUT none
        type := EventType.BLOWOUT
        priority := EventPriority.MEDIUM
        gameId := newGame.id
        sport := newGame.sport
        detectedAt := now
        title := "Blowout Alert"
        message := leadingTeamAbbr ++ (" is dominating ") ++ trailingTeamAbbr ++
          (" by ") ++ toString differential ++ (" points")
        notified := false
        targetTeams := [newGame.homeAbbr, newGame.awayAbbr]
        metadata := { differential := some differential
                      leadingTeam := some leadingTeamAbbr } }

/-- `detectCloseGame`: fires when the current differential is truthy
(nonzero) and at most the close threshold, the current period is the final
regulation period or later (period 4 and up, NBA), unless the old game was
already close (`oldDifferential !== null && oldDifferential <= threshold`). -/
def detectCloseGame (oldGame : Option Game) (newGame : Game) (now : Nat) :
    Option Event :=
  let differential := getPointDifferential newGame
  if differential = 0 ∨
      differential > EVENT_THRESHOLDS.CLOSE_GAME_POINT_DIFFERENTIAL then
    none
  else
    match newGame.period with
    | none => none
    | some p =>
      if p = 0 ∨ p < 4 then none
      else
        let oldDifferential := oldGame.map getPointDifferential
        let wasAlreadyClose : Bool :=
          match oldDifferential with
          | some d => d ≤ EVENT_THRESHOLDS.CLOSE_GAME_POINT_DIFFERENTIAL
          | none => false
        if wasAlreadyClose then none
        else
          some {
            id := generateEventId newGame.id EventType.CLOSE_GAME none
            type := EventType.CLOSE_GAME
            priority := EventPriority.HIGH
            gameId := newGame.id
            sport := newGame.sport
            detectedAt := now
            title := "Close Game!"
            message := newGame.awayAbbr ++ (" @ ") ++ newGame.homeAbbr ++
              (" is a nail-biter! Score within ") ++ toString differential ++
              (" points")
            notified := false
            targetTeams := [newGame.homeAbbr, newGame.awayAbbr]
            metadata := { differential := some differential
                          period := some p } }

/-- `detectFinalPeriod`: fires on the transition into period 4 (the NBA final
regulation period): current period is 4 and the old period was not 4. -/
def detectFinalPeriod (oldGame : Option Game) (newGame : Game) (now : Nat) :
    Option Event :=
  match newGame.period with
  | none => none
  | some p =>
    if p = 0 then none
    else
      let isInFinalPeriod := p = 4
      let wasInFinalPeriod := oldGame.bind Game.period = some 4
      if isInFinalPeriod ∧ ¬ wasInFinalPeriod then
        some {
          id := generateEventId newGame.id EventType.FINAL_PERIOD none
          type := EventType.FINAL_PERIOD
          priority := EventPriority.MEDIUM
          gameId := newGame.id
          sport := newGame.sport
          detectedAt := now
          title := "Final Period"
          message := newGame.awayAbbr ++ (" ") ++ toString newGame.awayScore ++
            (" @ ") ++ newGame.homeAbbr ++ (" ") ++ toString newGame.homeScore ++
            (" - 4th quarter!")
          notified := false
          targetTeams := [newGame.homeAbbr, newGame.awayAbbr]
          metadata := { period := some p
                        score := some (newGame.homeScore, newGame.awayScore) } }
      else none

/-- `detectStatusChange`: fires on the transition into POSTPONED or CANCELLED
from a non-matching previous status. -/
def detectStatusChange (oldGame : Option Game) (newGame : Game) (now : Nat) :
    Option Event :=
  if newGame.status = GameStatus.POSTPONED ∧
      oldGame.map Game.status ≠ some GameStatus.POSTPONED then
    some {
      id := generateEventId newGame.id EventType.GAME_POSTPONED none
      type := EventType.GAME_POSTPONED
      priority := EventPriority.MEDIUM
      gameId := newGame.id
      sport := newGame.sport
      detectedAt := now
      title := "Game Postponed"
      message := newGame.awayAbbr ++ (" @ ") ++ newGame.homeAbbr ++
        (" has been postponed")
      notified := false
      targetTeams := [newGame.homeAbbr, newGame.awayAbbr] }
  else if newGame.status = GameStatus.CANCELLED ∧
      oldGame.map Game.status ≠ some GameStatus.CANCELLED then
    some {
      id := generateEventId newGame.id EventType.GAME_CANCELLED none
      type := EventType.GAME_CANCELLED
      priority := EventPriority.MEDIUM
      gameId := newGame.id
      sport := newGame.sport
      detectedAt := now
      title := "Game Cancelled"
      message := newGame.awayAbbr ++ (" @ ") ++ newGame.homeAbbr ++
        (" has been cancelled")
      notified := false
      targetTeams := [newGame.homeAbbr, newGame.awayAbbr] }
  else none

/-- `detectCommonEvents`: runs every detector on the `(oldGame, newGame)`
pair and concatenates the results in the source's push order; the score-based
and period-based detectors run only when the new game is live. -/
def detectCommonEvents (oldGame : Option Game) (newGame : Game) (now : Nat) :
    List Event :=
  (detectGameStart oldGame newGame now).toList ++
  (detectGameEnd oldGame newGame now).toList ++
  (if isGameLive newGame then
    (detectBlowout oldGame newGame now).toList ++
    (detectCloseGame oldGame newGame now).toList ++
    (detectFinalPeriod oldGame newGame now).toList
  else []) ++
  (detectStatusChange oldGame newGame now).toList

/-- Per-sport subscription configuration, per the `sports` map entries of the
`UserPreferences` interface. -/
structure SportPrefs where
  enabled : Bool
  teams : Option (List String) := none
  favoriteTeam : Option String := none
  rivalTeams : Option (List String) := none
  eventTypes : Option (List EventType) := none
deriving DecidableEq

/-- Quiet-hours window.  The source field `end` is a Lean keyword and is
rendered as `endTime`.  Times are `HH:mm` strings compared lexicographically,
exactly as JavaScript compares them. -/
structure QuietHours where
  enabled : Bool
  start : String
  endTime : String
  timezone : Option String := none
deriving DecidableEq

/-- Subscriber preferences, per the `UserPreferences` interface.  The
`sports` partial map and the global per-event-type override map are modelled
as functions into `Option`. -/
structure UserPreferences where
  userId : String
  fcmToken : String
  platform : Option String := none
  enabled : Bool
  sports : Sport → Option SportPrefs
  eventTypePreferences : Option (EventType → Option Bool) := none
  quietHours : Option QuietHours := none
  createdAt : Nat := 0
  updatedAt : Nat := 0

/-- The legacy followed-team check of `shouldNotifyUser`: when both `teamIds`
and `sportPrefs.teams` are present, require at least one event team to appear
in the followed list; otherwise do not filter. -/
def legacyTeamGate (sportPrefs : SportPrefs) (teamIds : Option (List String)) :
    Bool :=
  match teamIds, sportPrefs.teams with
  | some ts, some teams => ts.any fun teamId => teams.contains teamId
  | _, _ => true

/-- The team-relevance step of `shouldNotifyUser`: when `favoriteTeam` (a
truthy, i.e. nonempty, string), `rivalTeams` and `teamIds` are all present,
require a favorite-versus-rival matchup in either orientation; otherwise fall
back to the legacy followed-team check. -/
def teamMatchGate (sportPrefs : SportPrefs) (teamIds : Option (List String)) :
    Bool :=
  match sportPrefs.favoriteTeam, sportPrefs.rivalTeams, teamIds with
  | some favoriteTeam, some rivalTeams, some ts =>
    if favoriteTeam = "" then
      -- an empty favorite string is falsy in JavaScript: rivalry branch skipped
      legacyTeamGate sportPrefs teamIds
    else
      let homeTeam := ts.get? 0
      let awayTeam := ts.get? 1
      let isFavoriteHome := homeTeam == some favoriteTeam
      let isFavoriteAway := awayTeam == some favoriteTeam
      let isRivalHome :=
        match homeTeam with
        | some h => rivalTeams.contains h
        | none => false
      let isRivalAway :=
        match awayTeam with
        | some a => rivalTeams.contains a
        | none => false
      (isFavoriteHome && isRivalAway) || (isFavoriteAway && isRivalHome)
  | _, _, _ => legacyTeamGate sportPrefs teamIds

/-- The per-sport event-kind allow-list check of `shouldNotifyUser`. -/
def eventTypeGate (sportPrefs : SportPrefs) (eventType : EventType) : Bool :=
  match sportPrefs.eventTypes with
  | some allowed => allowed.contains eventType
  | none => true

/-- The global per-event-type override check of `shouldNotifyUser`: an
explicit `false` entry rejects. -/
def globalEventTypeGate (prefsMap : Option (EventType → Option Bool))
    (eventType : EventType) : Bool :=
  match prefsMap with
  | some m => !(m eventType == some false)
  | none => true

/-- Lexicographic strict comparison of character lists, the order JavaScript
uses to compare strings code unit by code unit. -/
def charListLt : List Char → List Char → Bool
  | [], [] => false
  | [], _ :: _ => true
  | _ :: _, [] => false
  | a :: as, b :: bs =>
    if a < b then true
    else if b < a then false
    else charListLt as bs

/-- JavaScript string `<`: lexicographic comparison of the code units. -/
def jsStrLt (a b : String) : Bool :=
  charListLt a.data b.data

/-- The quiet-hours check of `shouldNotifyUser`.  `currentTime` stands for
the `HH:mm` rendering of the subscriber-local wall clock.  Overnight windows
(`start > end`) suppress when `currentTime >= start || currentTime <= end`;
same-day windows suppress when `currentTime >= start && currentTime <= end`.
All comparisons are JavaScript string comparisons (`jsStrLt`), so
`a >= b` is `!jsStrLt a b` and `a <= b` is `!jsStrLt b a`. -/
def quietHoursGate (quietHours : Option QuietHours) (currentTime : String) :
    Bool :=
  match quietHours with
  | none => true
  | some qh =>
    if qh.enabled = false then true
    else if jsStrLt qh.endTime qh.start then
      if !(jsStrLt currentTime qh.start) || !(jsStrLt qh.endTime currentTime) then false
      else true
    else
      if !(jsStrLt currentTime qh.start) && !(jsStrLt qh.endTime currentTime) then false
      else true

/-- `shouldNotifyUser`: the subscriber-filter chain — master switch, sport
subscription, team relevance (rivalry or legacy), per-sport event kinds,
global per-kind overrides, quiet hours.  The short-circuiting `if/return`
chain of the source is rendered as a `&&` chain in the same order. -/
def shouldNotifyUser (preferences : UserPreferences) (sport : Sport)
    (eventType : EventType) (teamIds : Option (List String))
    (currentTime : String) : Bool :=
  preferences.enabled &&
    match preferences.sports sport with
    | none => false
    | some sportPrefs =>
      sportPrefs.enabled &&
      teamMatchGate sportPrefs teamIds &&
      eventTypeGate sportPrefs eventType &&
      globalEventTypeGate preferences.eventTypePreferences eventType &&
      quietHoursGate preferences.quietHours currentTime

/-! ### FCM batch dispatch -/

/-- Per-recipient outcome reported by the push gateway for one address of a
batch: delivery success, and whether the failure code was one of the two
permanent invalid-token codes. -/
structure SendResponse where
  success : Bool
  errorCodeInvalid : Bool
deriving DecidableEq

/-- Gateway response for one submitted batch (`sendEachForMulticast`). -/
structure BatchResponse where
  successCount : Nat
  failureCount : Nat
  responses : List SendResponse
deriving DecidableEq

/-- Aggregated outcome returned by `sendBatchNotifications`. -/
structure BatchOutcome where
  successCount : Nat
  failureCount : Nat
  invalidTokens : List String
deriving DecidableEq

/-- The batch-splitting loop of `sendBatchNotifications`
(`for (i = 0; i < tokens.length; i += 500) push(tokens.slice(i, i + 500))`),
written with an explicit fuel argument so the recursion is structural; the
fuel is initialized to the list length, which bounds the iteration count. -/
def toBatchesAux : Nat → List String → List (List String)
  | 0, _ => []
  | _, [] => []
  | fuel + 1, t :: ts => ((t :: ts).take 500) :: toBatchesAux fuel ((t :: ts).drop 500)

/-- Split a token list into consecutive batches of at most 500 addresses. -/
def toBatches (fcmTokens : List String) : List (List String) :=
  toBatchesAux fcmTokens.length fcmTokens

/-- The invalid-token collection step of `sendBatchNotifications`: when the
batch reported failures, the addresses whose per-recipient response failed
with a permanent invalid-token code (`responses.forEach((resp, idx) => ...)`,
indexing back into the submitted batch). -/
def collectInvalid (batch : List String) (response : BatchResponse) :
    List String :=
  if response.failureCount > 0 then
    response.responses.enum.filterMap fun p =>
      if p.2.success then none
      else if p.2.errorCodeInvalid then batch.get? p.1
      else none
  else []

/-- One iteration of the `for (const batch of batches)` loop of
`sendBatchNotifications`: submit the batch to the gateway and accumulate its
success count, failure count, and invalid tokens. -/
def dispatchStep (gateway : List String → BatchResponse) (acc : BatchOutcome)
    (batch : List String) : BatchOutcome :=
  let response := gateway batch
  { successCount := acc.successCount + response.successCount
    failureCount := acc.failureCount + response.failureCount
    invalidTokens := acc.invalidTokens ++ collectInvalid batch response }

/-- `sendBatchNotifications`: returns the zero outcome for an empty token
list without contacting the gateway; otherwise splits the tokens into
batches, submits each to the gateway, and aggregates success and failure
counts and invalid tokens.  The second component records the batches
submitted to the gateway, in order. -/
def sendBatchNotifications (gateway : List String → BatchResponse)
    (fcmTokens : List String) : BatchOutcome × List (List String) :=
  if fcmTokens.length = 0 then
    ({ successCount := 0, failureCount := 0, invalidTokens := [] }, [])
  else
    let batches := toBatches fcmTokens
    (batches.foldl (dispatchStep gateway)
      { successCount := 0, failureCount := 0, invalidTokens := [] },
     batches)

/-! ### Notification engine orchestration

The engine's repository and gateway collaborators are modelled by an explicit
store (the events collection) and a per-event outcome record describing what
each awaited collaborator call would do (resolve or throw).  Every
collaborator invocation is logged as an action, so temporal claims about what
the engine does or skips are statements about the action trace. -/

/-- The events collection keyed by event identifier; newest write first. -/
abbrev EventStore := List (String × Event)

/-- `eventRepository.getEvent`: look up an event document by identifier. -/
def storeGet (store : EventStore) (id : String) : Option Event :=
  (store.find? fun kv => kv.1 == id).map (·.2)

/-- `eventRepository.saveEvent`: write the event document under its id. -/
def storeSet (store : EventStore) (e : Event) : EventStore :=
  (e.id, e) :: store

/-- `eventRepository.markEventNotified`: update the document's `notified`
flag and `notifiedAt` timestamp. -/
def storeMarkNotified (store : EventStore) (id : String) (now : Nat) :
    EventStore :=
  store.map fun kv =>
    if kv.1 == id then (kv.1, { kv.2 with notified := true, notifiedAt := some now })
    else kv

/-- One collaborator invocation performed by `processEvents`. -/
inductive EngineAction where
  | getEvent (id : String)
  | saveEvent (id : String)
  | resolveAudience (id : String)
  | dispatch (id : String)
  | markNotified (id : String)
deriving DecidableEq

/-- The identifier an action concerns. -/
def EngineAction.id : EngineAction → String
  | .getEvent i => i
  | .saveEvent i => i
  | .resolveAudience i => i
  | .dispatch i => i
  | .markNotified i => i

/-- Environment behaviour for processing one event: whether each awaited
collaborator call resolves, and with what.  `none` means the call throws. -/
structure EventOutcome where
  getOk : Bool := true
  saveOk : Bool := true
  resolveResult : Option (List String) := some []
  sendResult : Option Nat := some 0
  markOk : Bool := true

/-- The body of the `for (const event of events)` loop of
`NotificationEngine.processEvents`, for a single event: look the event up,
skip everything if it is already notified, otherwise save it, resolve the
audience, dispatch when the audience is nonempty, and mark it notified; any
throw is caught and processing of this event stops.  Returns the updated
store, the collaborator actions performed, and the notifications counted. -/
def processOne (store : EventStore) (now : Nat) (e : Event) (o : EventOutcome) :
    EventStore × List EngineAction × Nat :=
  if o.getOk = false then
    (store, [.getEvent e.id], 0)
  else if (storeGet store e.id).map Event.notified = some true then
    (store, [.getEvent e.id], 0)
  else if o.saveOk = false then
    (store, [.getEvent e.id, .saveEvent e.id], 0)
  else
    let store1 := storeSet store e
    match o.resolveResult with
    | none => (store1, [.getEvent e.id, .saveEvent e.id, .resolveAudience e.id], 0)
    | some targetUsers =>
      if targetUsers.length = 0 then
        (store1, [.getEvent e.id, .saveEvent e.id, .resolveAudience e.id], 0)
      else
        match o.sendResult with
        | none =>
          (store1,
           [.getEvent e.id, .saveEvent e.id, .resolveAudience e.id, .dispatch e.id], 0)
        | some successCount =>
          if o.markOk then
            (storeMarkNotified store1 e.id now,
             [.getEvent e.id, .saveEvent e.id, .resolveAudience e.id,
              .dispatch e.id, .markNotified e.id],
             successCount)
          else
            (store1,
             [.getEvent e.id, .saveEvent e.id, .resolveAudience e.id,
              .dispatch e.id, .markNotified e.id],
             successCount)

/-- `NotificationEngine.processEvents`: fold the per-event loop body over the
batch, threading the store and concatenating action traces; a failure inside
one iteration never stops the loop. -/
def processEvents (store : EventStore) (now : Nat) :
    List (Event × EventOutcome) → EventStore × List EngineAction × Nat
  | [] => (store, [], 0)
  | (e, o) :: rest =>
    let r1 := processOne store now e o
    let r2 := processEvents r1.1 now rest
    (r2.1, r1.2.1 ++ r2.2.1, r1.2.2 + r2.2.2)

/-! ### Auxiliary definitions used by statements and witnesses -/

/-- Erase the wall-clock fields of an event (the only fields of the
detector's output that depend on when detection runs). -/
def stripTimes (e : Event) : Event :=
  { e with detectedAt := 0, occurredAt := none }

/-- Number of events of one kind in a detection result. -/
def countType (events : List Event) (t : EventType) : Nat :=
  events.countP fun e => e.type == t

/-- Run detection over a chain of consecutive snapshots: each snapshot is
compared against its predecessor, starting from `prev`. -/
def chainDetect (prev : Game) (now : Nat) : List Game → List Event
  | [] => []
  | g :: gs => detectCommonEvents (some prev) g now ++ chainDetect g now gs

/-- A gateway response is well-formed for a batch when it carries one
per-recipient response per address and its `failureCount` counts exactly the
unsuccessful responses, as the FCM SDK guarantees. -/
def wellFormedResponse (batch : List String) (response : BatchResponse) : Prop :=
  response.responses.length = batch.length ∧
  response.failureCount = response.responses.countP fun r => !r.success

/-- Spec-side reading of an invalid-address report: the addresses of a batch
whose per-recipient response failed with a permanent invalid-token code. -/
def reportedInvalid (gateway : List String → BatchResponse)
    (batch : List String) : List String :=
  (batch.zip (gateway batch).responses).filterMap fun q =>
    if !q.2.success && q.2.errorCodeInvalid then some q.1 else none

/-- Whether an engine action is the initial ledger lookup. -/
def EngineAction.isGet : EngineAction → Bool
  | .getEvent _ => true
  | _ => false

/-- Fixture: a scheduled 0-0 game. -/
def baseGame : Game := {
  id := "nba_1"
  sport := Sport.NBA
  externalId := "1"
  scheduledTime := 0
  lastUpdated := 0
  status := GameStatus.SCHEDULED
  homeTeam := "Lakers"
  homeAbbr := "LAL"
  homeScore := 0
  awayTeam := "Celtics"
  awayAbbr := "BOS"
  awayScore := 0 }

/-- Fixture: the base game, live, at a given score and period. -/
def liveGame (h a : Nat) (p : Option Nat) : Game :=
  { baseGame with
    status := GameStatus.LIVE
    homeScore := h
    awayScore := a
    period := p }

/-- Fixture: minimal enabled preferences subscribed to the NBA. -/
def basePrefs : UserPreferences := {
  userId := "u1"
  fcmToken := "t1"
  enabled := true
  sports := fun s => if s = Sport.NBA then some { enabled := true } else none }

/-- Fixture: preferences with favorite team LAL and rival list [BOS]. -/
def rivalryPrefs : UserPreferences :=
  { basePrefs with
    sports := fun s =>
      if s = Sport.NBA then
        some { enabled := true
               favoriteTeam := some ("LAL")
               rivalTeams := some [("BOS")] }
      else none }

/-- Fixture: preferences with an enabled overnight quiet-hours window from
22:00 to 08:00. -/
def quietHourPrefs : UserPreferences :=
  { basePrefs with
    quietHours := some { enabled := true, start := "22:00", endTime := "08:00" } }

/-- Fixture: an already-notified stored record for the demo event. -/
def notifiedRecord : Event := {
  id := "nba_1_GAME_START"
  type := EventType.GAME_START
  priority := EventPriority.HIGH
  gameId := "nba_1"
  sport := Sport.NBA
  detectedAt := 7
  title := "Game Started"
  message := "BOS @ LAL is now live!"
  notified := true }

/-- Fixture: an event store whose only record is already notified. -/
def notifiedStore : EventStore :=
  [(("nba_1_GAME_START"), notifiedRecord)]

/-- Fixture: a gateway whose every response is a success, with well-formed
counts. -/
def okGateway : List String → BatchResponse := fun batch =>
  { successCount := batch.length
    failureCount := 0
    responses := batch.map fun _ => { success := true, errorCodeInvalid := false } }

/-- Fixture: a minimal detected event for engine witnesses. -/
def demoEvent : Event := {
  id := "nba_1_GAME_START"
  type := EventType.GAME_START
  priority := EventPriority.HIGH
  gameId := "nba_1"
  sport := Sport.NBA
  detectedAt := 7
  title := "Game Started"
  message := "BOS @ LAL is now live!"
  notified := false }

/-! ## Detector lemmas -/

lemma detectGameStart_shape {o : Option Game} {g : Game} {t : Nat} {e : Event}
    (h : detectGameStart o g t = some e) :
    e.type = EventType.GAME_START ∧ e.priority = EventPriority.HIGH ∧
    e.id = generateEventId g.id EventType.GAME_START none ∧ e.gameId = g.id := by
  simp only [detectGameStart] at h
  split at h
  · simp only [Option.some.injEq] at h
    subst h
    exact ⟨rfl, rfl, rfl, rfl⟩
  · exact Option.noConfusion h

lemma detectGameEnd_shape {o : Option Game} {g : Game} {t : Nat} {e : Event}
    (h : detectGameEnd o g t = some e) :
    e.type = EventType.GAME_END ∧ e.priority = EventPriority.HIGH ∧
    e.id = generateEventId g.id EventType.GAME_END none ∧ e.gameId = g.id := by
  simp only [detectGameEnd] at h
  split at h
  · simp only [Option.some.injEq] at h
    subst h
    exact ⟨rfl, rfl, rfl, rfl⟩
  · exact Option.noConfusion h

lemma detectBlowout_shape {o : Option Game} {g : Game} {t : Nat} {e : Event}
    (h : detectBlowout o g t = some e) :
    e.type = EventType.BLOWOUT ∧ e.priority = EventPriority.MEDIUM ∧
    e.id = generateEventId g.id EventType.BLOWOUT none ∧ e.gameId = g.id := by
  simp only [detectBlowout] at h
  split at h
  · exact Option.noConfusion h
  · split at h
    · exact Option.noConfusion h
    · simp only [Option.some.injEq] at h
      subst h
      exact ⟨rfl, rfl, rfl, rfl⟩

lemma detectCloseGame_shape {o : Option Game} {g : Game} {t : Nat} {e : Event}
    (h : detectCloseGame o g t = some e) :
    e.type = EventType.CLOSE_GAME ∧ e.priority = EventPriority.HIGH ∧
    e.id = generateEventId g.id EventType.CLOSE_GAME none ∧ e.gameId = g.id := by
  simp only [detectCloseGame] at h
  split at h
  · exact Option.noConfusion h
  · split at h
    · exact Option.noConfusion h
    · split at h
      · exact Option.noConfusion h
      · split at h
        · exact Option.noConfusion h
        · simp only [Option.some.injEq] at h
          subst h
          exact ⟨rfl, rfl, rfl, rfl⟩

lemma detectFinalPeriod_shape {o : Option Game} {g : Game} {t : Nat} {e : Event}
    (h : detectFinalPeriod o g t = some e) :
    e.type = EventType.FINAL_PERIOD ∧ e.priority = EventPriority.MEDIUM ∧
    e.id = generateEventId g.id EventType.FINAL_PERIOD none ∧ e.gameId = g.id := by
  simp only [detectFinalPeriod] at h
  split at h
  · exact Option.noConfusion h
  · split at h
    · exact Option.noConfusion h
    · split at h
      · simp only [Option.some.injEq] at h
        subst h
        exact ⟨rfl, rfl, rfl, rfl⟩
      · exact Option.noConfusion h

lemma detectStatusChange_shape {o : Option Game} {g : Game} {t : Nat} {e : Event}
    (h : detectStatusChange o g t = some e) :
    (e.type = EventType.GAME_POSTPONED ∨ e.type = EventType.GAME_CANCELLED) ∧
    e.priority = EventPriority.MEDIUM ∧
    e.id = generateEventId g.id e.type none ∧ e.gameId = g.id := by
  simp only [detectStatusChange] at h
  split at h
  · simp only [Option.some.injEq] at h
    subst h
    exact ⟨Or.inl rfl, rfl, rfl, rfl⟩
  · split at h
    · simp only [Option.some.injEq] at h
      subst h
      exact ⟨Or.inr rfl, rfl, rfl, rfl⟩
    · exact Option.noConfusion h

lemma detectGameStart_isSome (o : Option Game) (g : Game) (t : Nat) :
    (detectGameStart o g t).isSome = true ↔
      (o.map Game.status ≠ some GameStatus.LIVE ∧ g.status = GameStatus.LIVE) := by
  unfold detectGameStart
  split <;> simp_all

lemma countType_append (l₁ l₂ : List Event) (T : EventType) :
    countType (l₁ ++ l₂) T = countType l₁ T + countType l₂ T := by
  simp [countType, List.countP_append]

lemma countType_toList_ne {o : Option Event} {T : EventType}
    (h : ∀ e, o = some e → e.type ≠ T) : countType o.toList T = 0 := by
  cases o with
  | none => rfl
  | some e => simp [countType, List.countP_cons, h e rfl]

lemma countType_toList_eq {o : Option Event} {T : EventType}
    (h : ∀ e, o = some e → e.type = T) :
    countType o.toList T = if o.isSome then 1 else 0 := by
  cases o with
  | none => rfl
  | some e => simp [countType, List.countP_cons, h e rfl]

/-- C6: the detector produces a lifecycle-start (GAME_START) event exactly
when the current status is LIVE and the previous status (if any) was not
LIVE, and every such event has priority HIGH. -/
theorem game_start_detection (o : Option Game) (g : Game) (t : Nat) :
    (countType (detectCommonEvents o g t) EventType.GAME_START =
      if o.map Game.status ≠ some GameStatus.LIVE ∧ g.status = GameStatus.LIVE
      then 1 else 0) ∧
    (∀ e ∈ detectCommonEvents o g t, e.type = EventType.GAME_START →
      e.priority = EventPriority.HIGH) := by
  constructor
  · unfold detectCommonEvents
    rw [countType_append, countType_append, countType_append]
    rw [countType_toList_eq (fun e h => (detectGameStart_shape h).1)]
    rw [countType_toList_ne (fun e h => by
      rw [(detectGameEnd_shape h).1]; decide)]
    rw [countType_toList_ne (fun e h => by
      rcases (detectStatusChange_shape h).1 with h2 | h2 <;> rw [h2] <;> decide)]
    have hmid :
        countType
          (if isGameLive g then
            (detectBlowout o g t).toList ++ (detectCloseGame o g t).toList ++
              (detectFinalPeriod o g t).toList
          else []) EventType.GAME_START = 0 := by
      split
      · rw [countType_append, countType_append]
        rw [countType_toList_ne (fun e h => by
          rw [(detectBlowout_shape h).1]; decide)]
        rw [countType_toList_ne (fun e h => by
          rw [(detectCloseGame_shape h).1]; decide)]
        rw [countType_toList_ne (fun e h => by
          rw [(detectFinalPeriod_shape h).1]; decide)]
      · rfl
    rw [hmid]
    rw [if_congr (detectGameStart_isSome o g t) rfl rfl]
    omega
  · intro e he hty
    unfold detectCommonEvents at he
    simp only [List.mem_append] at he
    rcases he with ((hs | hs) | hs) | hs
    · rw [Option.mem_toList, Option.mem_def] at hs
      exact (detectGameStart_shape hs).2.1
    · rw [Option.mem_toList, Option.mem_def] at hs
      exact absurd (hty.symm.trans (detectGameEnd_shape hs).1) (by decide)
    · revert hs
      split
      · intro hs
        simp only [List.mem_append, Option.mem_toList, Option.mem_def] at hs
        rcases hs with (hs | hs) | hs
        · exact absurd (hty.symm.trans (detectBlowout_shape hs).1) (by decide)
        · exact absurd (hty.symm.trans (detectCloseGame_shape hs).1) (by decide)
        · exact absurd (hty.symm.trans (detectFinalPeriod_shape hs).1) (by decide)
      · intro hs
        exact absurd hs (List.not_mem_nil e)
    · rw [Option.mem_toList, Option.mem_def] at hs
      rcases (detectStatusChange_shape hs).1 with h2 | h2 <;>
        exact absurd (hty.symm.trans h2) (by decide)

/-- Witness for C6: a SCHEDULED to LIVE transition, and a first observation
of a LIVE game, each yield exactly one GAME_START event. -/
theorem game_start_detection_witness :
    countType (detectCommonEvents (some baseGame) (liveGame 0 0 none) 7)
        EventType.GAME_START = 1 ∧
    countType (detectCommonEvents none (liveGame 3 0 (some 1)) 7)
        EventType.GAME_START = 1 := by
  constructor
  · have h := (game_start_detection (some baseGame) (liveGame 0 0 none) 7).1
    rw [if_pos (by decide)] at h
    exact h
  · have h := (game_start_detection none (liveGame 3 0 (some 1)) 7).1
    rw [if_pos (by decide)] at h
    exact h

lemma countType_blowout (o : Option Game) (g : Game) (t : Nat)
    (hs : g.status = GameStatus.LIVE) :
    countType (detectCommonEvents o g t) EventType.BLOWOUT =
      if (detectBlowout o g t).isSome then 1 else 0 := by
  unfold detectCommonEvents
  rw [countType_append, countType_append, countType_append]
  rw [countType_toList_ne (fun e h => by rw [(detectGameStart_shape h).1]; decide)]
  rw [countType_toList_ne (fun e h => by rw [(detectGameEnd_shape h).1]; decide)]
  rw [countType_toList_ne (fun e h => by
    rcases (detectStatusChange_shape h).1 with h2 | h2 <;> rw [h2] <;> decide)]
  rw [if_pos (by simp [isGameLive, hs])]
  rw [countType_append, countType_append]
  rw [countType_toList_eq (fun e h => (detectBlowout_shape h).1)]
  rw [countType_toList_ne (fun e h => by rw [(detectCloseGame_shape h).1]; decide)]
  rw [countType_toList_ne (fun e h => by rw [(detectFinalPeriod_shape h).1]; decide)]
  omega

lemma detectBlowout_fires {o : Option Game} {g : Game} {t : Nat}
    (hd : EVENT_THRESHOLDS.BLOWOUT_POINT_DIFFERENTIAL ≤ getPointDifferential g)
    (hold : ∀ og, o = some og →
      getPointDifferential og < EVENT_THRESHOLDS.BLOWOUT_POINT_DIFFERENTIAL) :
    (detectBlowout o g t).isSome = true := by
  have h20 : (20 : Nat) ≤ getPointDifferential g := hd
  have h1 : ¬(getPointDifferential g = 0 ∨
      getPointDifferential g < EVENT_THRESHOLDS.BLOWOUT_POINT_DIFFERENTIAL) := by
    simp only [EVENT_THRESHOLDS.BLOWOUT_POINT_DIFFERENTIAL]
    omega
  cases o with
  | none => simp [detectBlowout, h1]
  | some og =>
    have h2 := hold og rfl
    simp only [EVENT_THRESHOLDS.BLOWOUT_POINT_DIFFERENTIAL] at h2
    simp [detectBlowout, h1, Nat.not_le.2 h2,
      EVENT_THRESHOLDS.BLOWOUT_POINT_DIFFERENTIAL]
    omega

lemma detectBlowout_skips {og g : Game} {t : Nat}
    (ho : EVENT_THRESHOLDS.BLOWOUT_POINT_DIFFERENTIAL ≤ getPointDifferential og) :
    (detectBlowout (some og) g t).isSome = false := by
  by_cases h1 : getPointDifferential g = 0 ∨
      getPointDifferential g < EVENT_THRESHOLDS.BLOWOUT_POINT_DIFFERENTIAL
  · simp [detectBlowout, h1]
  · have h2 : getPointDifferential og ≠ 0 := by
      simp only [EVENT_THRESHOLDS.BLOWOUT_POINT_DIFFERENTIAL] at ho
      omega
    simp [detectBlowout, h1, h2, ho]

lemma chain_no_blowout (prev : Game) (gs : List Game) (t : Nat)
    (hp : EVENT_THRESHOLDS.BLOWOUT_POINT_DIFFERENTIAL ≤ getPointDifferential prev)
    (hall : ∀ g ∈ gs, g.status = GameStatus.LIVE ∧
      EVENT_THRESHOLDS.BLOWOUT_POINT_DIFFERENTIAL ≤ getPointDifferential g) :
    countType (chainDetect prev t gs) EventType.BLOWOUT = 0 := by
  induction gs generalizing prev with
  | nil => rfl
  | cons g gs ih =>
    have hg := hall g (by simp)
    rw [chainDetect, countType_append, countType_blowout _ _ _ hg.1]
    rw [detectBlowout_skips hp]
    have hrest := ih g hg.2 (fun x hx => hall x (by simp [hx]))
    simpa using hrest

/-- C2: blowout detection is edge-triggered.  For a live game at or above the
blowout threshold, exactly one BLOWOUT event is produced when the previous
differential (if any) was below the threshold, and none when it was already
at or above it; consequently a chain of snapshots that stays at or above the
threshold produces exactly one BLOWOUT event, on the first transition. -/
theorem blowout_edge_triggered :
    (∀ (o : Option Game) (g : Game) (t : Nat),
      g.status = GameStatus.LIVE →
      EVENT_THRESHOLDS.BLOWOUT_POINT_DIFFERENTIAL ≤ getPointDifferential g →
      ((∀ og, o = some og →
          getPointDifferential og < EVENT_THRESHOLDS.BLOWOUT_POINT_DIFFERENTIAL) →
        countType (detectCommonEvents o g t) EventType.BLOWOUT = 1) ∧
      (∀ og, o = some og →
        EVENT_THRESHOLDS.BLOWOUT_POINT_DIFFERENTIAL ≤ getPointDifferential og →
        countType (detectCommonEvents o g t) EventType.BLOWOUT = 0)) ∧
    (∀ (prev : Game) (gs : List Game) (t : Nat),
      getPointDifferential prev < EVENT_THRESHOLDS.BLOWOUT_POINT_DIFFERENTIAL →
      (∀ g ∈ gs, g.status = GameStatus.LIVE ∧
        EVENT_THRESHOLDS.BLOWOUT_POINT_DIFFERENTIAL ≤ getPointDifferential g) →
      gs ≠ [] →
      countType (chainDetect prev t gs) EventType.BLOWOUT = 1) := by
  constructor
  · intro o g t hs hd
    constructor
    · intro hold
      rw [countType_blowout o g t hs, detectBlowout_fires hd hold]
      rfl
    · intro og ho h20
      subst ho
      rw [countType_blowout _ g t hs, detectBlowout_skips h20]
      rfl
  · intro prev gs t hp hall hne
    cases gs with
    | nil => exact absurd rfl hne
    | cons g gs =>
      have hg := hall g (by simp)
      rw [chainDetect, countType_append, countType_blowout _ _ _ hg.1]
      rw [detectBlowout_fires hg.2 (fun og ho => by
        cases ho
        exact hp)]
      rw [chain_no_blowout g gs t hg.2 (fun x hx => hall x (by simp [hx]))]
      rfl

/-- Witness for C2: a live game moving from differential 18 to 22 fires one
BLOWOUT event; a chain staying at or above 20 for three snapshots fires
exactly one in total. -/
theorem blowout_edge_triggered_witness :
    countType
        (detectCommonEvents (some (liveGame 108 90 (some 4)))
          (liveGame 112 90 (some 4)) 0) EventType.BLOWOUT = 1 ∧
    countType
        (detectCommonEvents (some (liveGame 112 90 (some 4)))
          (liveGame 115 92 (some 4)) 0) EventType.BLOWOUT = 0 ∧
    countType
        (chainDetect (liveGame 100 99 (some 4)) 0
          [liveGame 120 90 (some 4), liveGame 125 90 (some 4),
           liveGame 130 95 (some 4)]) EventType.BLOWOUT = 1 := by
  refine ⟨?_, ?_, ?_⟩
  · exact ((blowout_edge_triggered.1 (some (liveGame 108 90 (some 4)))
      (liveGame 112 90 (some 4)) 0 (by decide) (by decide)).1
      (by intro og ho; cases ho; decide))
  · exact ((blowout_edge_triggered.1 (some (liveGame 112 90 (some 4)))
      (liveGame 115 92 (some 4)) 0 (by decide) (by decide)).2
      (liveGame 112 90 (some 4)) rfl (by decide))
  · exact (blowout_edge_triggered.2 (liveGame 100 99 (some 4))
      [liveGame 120 90 (some 4), liveGame 125 90 (some 4), liveGame 130 95 (some 4)]
      0 (by decide) (by decide) (by decide))

lemma strip_detectGameStart (o : Option Game) (g : Game) (t₁ t₂ : Nat) :
    (detectGameStart o g t₁).map stripTimes =
      (detectGameStart o g t₂).map stripTimes := by
  simp only [detectGameStart]
  split <;> rfl

lemma strip_detectGameEnd (o : Option Game) (g : Game) (t₁ t₂ : Nat) :
    (detectGameEnd o g t₁).map stripTimes =
      (detectGameEnd o g t₂).map stripTimes := by
  simp only [detectGameEnd]
  split <;> rfl

lemma strip_detectBlowout (o : Option Game) (g : Game) (t₁ t₂ : Nat) :
    (detectBlowout o g t₁).map stripTimes =
      (detectBlowout o g t₂).map stripTimes := by
  simp only [detectBlowout]
  split
  · rfl
  · split <;> rfl

lemma strip_detectCloseGame (o : Option Game) (g : Game) (t₁ t₂ : Nat) :
    (detectCloseGame o g t₁).map stripTimes =
      (detectCloseGame o g t₂).map stripTimes := by
  simp only [detectCloseGame]
  split
  · rfl
  · split
    · rfl
    · split
      · rfl
      · split <;> rfl

lemma strip_detectFinalPeriod (o : Option Game) (g : Game) (t₁ t₂ : Nat) :
    (detectFinalPeriod o g t₁).map stripTimes =
      (detectFinalPeriod o g t₂).map stripTimes := by
  simp only [detectFinalPeriod]
  split
  · rfl
  · split
    · rfl
    · split <;> rfl

lemma strip_detectStatusChange (o : Option Game) (g : Game) (t₁ t₂ : Nat) :
    (detectStatusChange o g t₁).map stripTimes =
      (detectStatusChange o g t₂).map stripTimes := by
  simp only [detectStatusChange]
  split
  · rfl
  · split <;> rfl

lemma toList_map_strip {o₁ o₂ : Option Event}
    (h : o₁.map stripTimes = o₂.map stripTimes) :
    o₁.toList.map stripTimes = o₂.toList.map stripTimes := by
  cases o₁ <;> cases o₂ <;> simp_all

lemma map_id_of_map_strip {l₁ l₂ : List Event}
    (h : l₁.map stripTimes = l₂.map stripTimes) :
    l₁.map Event.id = l₂.map Event.id := by
  have hside : ∀ l : List Event, (l.map stripTimes).map Event.id = l.map Event.id := by
    intro l
    induction l with
    | nil => rfl
    | cons e l ih =>
      simp only [List.map_cons, ih]
      rfl
  calc l₁.map Event.id = (l₁.map stripTimes).map Event.id := (hside l₁).symm
    _ = (l₂.map stripTimes).map Event.id := by rw [h]
    _ = l₂.map Event.id := hside l₂

/-- C7: detection is idempotent.  For a fixed snapshot pair the result is the
same whatever the wall clock reads: the events agree up to their timestamp
fields and have identical identifiers, and every identifier is deterministic,
derived by `generateEventId` from the game identifier and the event kind with
no disambiguating suffix. -/
theorem detection_idempotent (o : Option Game) (g : Game) (t₁ t₂ : Nat) :
    (detectCommonEvents o g t₁).map stripTimes =
        (detectCommonEvents o g t₂).map stripTimes ∧
    (detectCommonEvents o g t₁).map Event.id =
        (detectCommonEvents o g t₂).map Event.id ∧
    (∀ e ∈ detectCommonEvents o g t₁,
      e.id = generateEventId e.gameId e.type none) := by
  have hstrip : (detectCommonEvents o g t₁).map stripTimes =
      (detectCommonEvents o g t₂).map stripTimes := by
    unfold detectCommonEvents
    simp only [List.map_append]
    rw [toList_map_strip (strip_detectGameStart o g t₁ t₂)]
    rw [toList_map_strip (strip_detectGameEnd o g t₁ t₂)]
    rw [toList_map_strip (strip_detectStatusChange o g t₁ t₂)]
    have hmid :
        ((if isGameLive g then
            (detectBlowout o g t₁).toList ++ (detectCloseGame o g t₁).toList ++
              (detectFinalPeriod o g t₁).toList
          else []).map stripTimes) =
        ((if isGameLive g then
            (detectBlowout o g t₂).toList ++ (detectCloseGame o g t₂).toList ++
              (detectFinalPeriod o g t₂).toList
          else []).map stripTimes) := by
      split
      · simp only [List.map_append]
        rw [toList_map_strip (strip_detectBlowout o g t₁ t₂)]
        rw [toList_map_strip (strip_detectCloseGame o g t₁ t₂)]
        rw [toList_map_strip (strip_detectFinalPeriod o g t₁ t₂)]
      · rfl
    rw [hmid]
  refine ⟨hstrip, map_id_of_map_strip hstrip, ?_⟩
  intro e he
  unfold detectCommonEvents at he
  simp only [List.mem_append] at he
  rcases he with ((hs | hs) | hs) | hs
  · rw [Option.mem_toList, Option.mem_def] at hs
    obtain ⟨ht, _, hid, hgid⟩ := detectGameStart_shape hs
    rw [hid, ht, hgid]
  · rw [Option.mem_toList, Option.mem_def] at hs
    obtain ⟨ht, _, hid, hgid⟩ := detectGameEnd_shape hs
    rw [hid, ht, hgid]
  · revert hs
    split
    · intro hs
      simp only [List.mem_append, Option.mem_toList, Option.mem_def] at hs
      rcases hs with (hs | hs) | hs
      · obtain ⟨ht, _, hid, hgid⟩ := detectBlowout_shape hs
        rw [hid, ht, hgid]
      · obtain ⟨ht, _, hid, hgid⟩ := detectCloseGame_shape hs
        rw [hid, ht, hgid]
      · obtain ⟨ht, _, hid, hgid⟩ := detectFinalPeriod_shape hs
        rw [hid, ht, hgid]
    · intro hs
      exact absurd hs (List.not_mem_nil e)
  · rw [Option.mem_toList, Option.mem_def] at hs
    obtain ⟨_, _, hid, hgid⟩ := detectStatusChange_shape hs
    rw [hid, hgid]

/-- Witness for C7: the same snapshot pair detected at two different clock
readings yields the same stripped events and identifiers. -/
theorem detection_idempotent_witness :
    (detectCommonEvents (some baseGame) (liveGame 0 0 none) 3).map stripTimes =
        (detectCommonEvents (some baseGame) (liveGame 0 0 none) 99).map stripTimes ∧
    (detectCommonEvents (some baseGame) (liveGame 0 0 none) 3).map Event.id =
        (detectCommonEvents (some baseGame) (liveGame 0 0 none) 99).map Event.id ∧
    (∀ e ∈ detectCommonEvents (some baseGame) (liveGame 0 0 none) 3,
      e.id = generateEventId e.gameId e.type none) :=
  detection_idempotent (some baseGame) (liveGame 0 0 none) 3 99

lemma EventType.str_injective :
    ∀ t₁ t₂ : EventType, t₁.str = t₂.str → t₁ = t₂ := by
  decide

lemma generateEventId_type_inj {gid : String} {t₁ t₂ : EventType}
    (h : generateEventId gid t₁ none = generateEventId gid t₂ none) :
    t₁ = t₂ := by
  apply EventType.str_injective
  unfold generateEventId at h
  have hd := congrArg String.data h
  simp only [String.data_append] at hd
  exact String.ext (List.append_cancel_left hd)

lemma mem_detect_id {o : Option Game} {g : Game} {t : Nat} {e : Event}
    (he : e ∈ detectCommonEvents o g t) :
    e.id = generateEventId g.id e.type none := by
  unfold detectCommonEvents at he
  simp only [List.mem_append] at he
  rcases he with ((hs | hs) | hs) | hs
  · rw [Option.mem_toList, Option.mem_def] at hs
    obtain ⟨ht, _, hid, _⟩ := detectGameStart_shape hs
    rw [hid, ht]
  · rw [Option.mem_toList, Option.mem_def] at hs
    obtain ⟨ht, _, hid, _⟩ := detectGameEnd_shape hs
    rw [hid, ht]
  · revert hs
    split
    · intro hs
      simp only [List.mem_append, Option.mem_toList, Option.mem_def] at hs
      rcases hs with (hs | hs) | hs
      · obtain ⟨ht, _, hid, _⟩ := detectBlowout_shape hs
        rw [hid, ht]
      · obtain ⟨ht, _, hid, _⟩ := detectCloseGame_shape hs
        rw [hid, ht]
      · obtain ⟨ht, _, hid, _⟩ := detectFinalPeriod_shape hs
        rw [hid, ht]
    · intro hs
      exact absurd hs (List.not_mem_nil e)
  · rw [Option.mem_toList, Option.mem_def] at hs
    obtain ⟨_, _, hid, _⟩ := detectStatusChange_shape hs
    exact hid

lemma toList_map_type_sublist {o : Option Event} {ts : List EventType}
    (h : ∀ e, o = some e → e.type ∈ ts) :
    List.Sublist (o.toList.map Event.type) ts := by
  cases o with
  | none => exact List.nil_sublist ts
  | some e => exact List.singleton_sublist.mpr (h e rfl)

lemma types_pairwise (o : Option Game) (g : Game) (t : Nat) :
    ((detectCommonEvents o g t).map Event.type).Pairwise (· ≠ ·) := by
  have hsub : List.Sublist ((detectCommonEvents o g t).map Event.type)
      ((([EventType.GAME_START] ++ [EventType.GAME_END]) ++
        ([EventType.BLOWOUT] ++ [EventType.CLOSE_GAME] ++ [EventType.FINAL_PERIOD])) ++
        [EventType.GAME_POSTPONED, EventType.GAME_CANCELLED]) := by
    unfold detectCommonEvents
    simp only [List.map_append]
    refine List.Sublist.append (List.Sublist.append (List.Sublist.append ?_ ?_) ?_) ?_
    · exact toList_map_type_sublist (fun e h => by
        rw [(detectGameStart_shape h).1]; decide)
    · exact toList_map_type_sublist (fun e h => by
        rw [(detectGameEnd_shape h).1]; decide)
    · split
      · simp only [List.map_append]
        refine List.Sublist.append (List.Sublist.append ?_ ?_) ?_
        · exact toList_map_type_sublist (fun e h => by
            rw [(detectBlowout_shape h).1]; decide)
        · exact toList_map_type_sublist (fun e h => by
            rw [(detectCloseGame_shape h).1]; decide)
        · exact toList_map_type_sublist (fun e h => by
            rw [(detectFinalPeriod_shape h).1]; decide)
      · exact List.nil_sublist _
    · exact toList_map_type_sublist (fun e h => by
        rcases (detectStatusChange_shape h).1 with h2 | h2 <;> rw [h2] <;> decide)
  exact List.Pairwise.sublist hsub (by decide)

lemma countType_le_one_of_pairwise {l : List Event} {T : EventType}
    (h : l.Pairwise fun a b => a.type ≠ b.type) : countType l T ≤ 1 := by
  induction l with
  | nil => simp [countType]
  | cons e l ih =>
    rw [List.pairwise_cons] at h
    have hc : countType (e :: l) T = countType l T + if e.type == T then 1 else 0 := by
      simp [countType, List.countP_cons]
    rw [hc]
    by_cases hT : e.type = T
    · have hz : countType l T = 0 := by
        simp only [countType]
        rw [List.countP_eq_zero]
        intro b hb
        simp only [beq_iff_eq]
        intro hbt
        exact (h.1 b hb) (hT.trans hbt.symm)
      simp [hz, hT]
    · have := ih h.2
      simp only [beq_iff_eq, hT, if_false]
      omega

/-- C10: for every snapshot pair, the detector emits at most one event of
each kind, and all emitted identifiers are pairwise distinct, since each
identifier is the game identifier joined with the event kind and no
disambiguating suffix is used. -/
theorem detection_events_distinct (o : Option Game) (g : Game) (t : Nat) :
    ((detectCommonEvents o g t).map Event.id).Nodup ∧
    ∀ T : EventType, countType (detectCommonEvents o g t) T ≤ 1 := by
  have hpwt : (detectCommonEvents o g t).Pairwise fun a b => a.type ≠ b.type :=
    List.pairwise_map.mp (types_pairwise o g t)
  constructor
  · show ((detectCommonEvents o g t).map Event.id).Pairwise (· ≠ ·)
    rw [List.pairwise_map]
    refine hpwt.imp_of_mem ?_
    intro a b ha hb hne heq
    apply hne
    have h3 : generateEventId g.id a.type none = generateEventId g.id b.type none := by
      rw [← mem_detect_id ha, ← mem_detect_id hb, heq]
    exact generateEventId_type_inj h3
  · intro T
    exact countType_le_one_of_pairwise hpwt

/-- C3: evaluation at the failing input.  A tied LIVE game (differential 0)
in period 4 whose previous differential was 7 (above the close threshold)
produces NO close-game event, because the detector's `!differential` guard
treats a zero differential as missing; a differential of 5 under the same
circumstances does produce exactly one CLOSE_GAME event of priority HIGH. -/
theorem tied_close_game_not_detected :
    getPointDifferential (liveGame 100 100 (some 4)) = 0 ∧
    (liveGame 100 100 (some 4)).status = GameStatus.LIVE ∧
    (liveGame 100 100 (some 4)).period = some 4 ∧
    getPointDifferential (liveGame 100 93 (some 4)) = 7 ∧
    countType
      (detectCommonEvents (some (liveGame 100 93 (some 4)))
        (liveGame 100 100 (some 4)) 0) EventType.CLOSE_GAME = 0 ∧
    (detectCommonEvents (some (liveGame 100 93 (some 4)))
        (liveGame 100 95 (some 4)) 0).map
      (fun e => (e.type, e.priority)) =
      [(EventType.CLOSE_GAME, EventPriority.HIGH)] := by
  decide

/-- C4 (counterexample): with the overnight window 22:00 to 08:00 enabled and
every other check passing, the subscriber-local time 08:00 — exactly the
window's end — is suppressed by the code, although the claimed half-open
window `[start, end)` does not contain it: 08:00 is neither at or after
22:00 nor strictly before 08:00. -/
theorem quiet_hours_end_boundary_counterexample :
    shouldNotifyUser quietHourPrefs Sport.NBA EventType.GAME_START none
        ("08:00") = false ∧
    jsStrLt ("08:00") ("22:00") = true ∧
    jsStrLt ("08:00") ("08:00") = false := by
  decide

lemma quietHoursGate_false_iff (qh : QuietHours) (t : String)
    (hen : qh.enabled = true) :
    (quietHoursGate (some qh) t = false ↔
      (if jsStrLt qh.endTime qh.start = true
       then (!(jsStrLt t qh.start) || !(jsStrLt qh.endTime t)) = true
       else (!(jsStrLt t qh.start) && !(jsStrLt qh.endTime t)) = true)) := by
  cases hc : jsStrLt qh.endTime qh.start
  · cases hb : (!(jsStrLt t qh.start) && !(jsStrLt qh.endTime t)) <;>
      simp [quietHoursGate, hen, hc, hb]
  · cases hb : (!(jsStrLt t qh.start) || !(jsStrLt qh.endTime t)) <;>
      simp [quietHoursGate, hen, hc, hb]

/-- C4 (amended): quiet-hours suppression is a CLOSED window at the end
boundary.  For a configuration with quiet hours enabled whose every other
check passes, notification is suppressed exactly when, comparing `HH:mm`
strings JavaScript-style, `t >= start || t <= end` for an overnight window
(`start > end`) and `start <= t && t <= end` otherwise; in particular a time
exactly equal to `end` IS suppressed. -/
theorem quiet_hours_closed_window (p : UserPreferences) (sport : Sport)
    (eventType : EventType) (teamIds : Option (List String)) (t : String)
    (qh : QuietHours) (hqh : p.quietHours = some qh) (hen : qh.enabled = true)
    (hpass : shouldNotifyUser { p with quietHours := none } sport eventType
      teamIds t = true) :
    (shouldNotifyUser p sport eventType teamIds t = false ↔
      (if jsStrLt qh.endTime qh.start = true
       then (!(jsStrLt t qh.start) || !(jsStrLt qh.endTime t)) = true
       else (!(jsStrLt t qh.start) && !(jsStrLt qh.endTime t)) = true)) := by
  have hpass2 : (p.enabled &&
      match p.sports sport with
      | none => false
      | some sportPrefs =>
        sportPrefs.enabled &&
        teamMatchGate sportPrefs teamIds &&
        eventTypeGate sportPrefs eventType &&
        globalEventTypeGate p.eventTypePreferences eventType &&
        quietHoursGate none t) = true := hpass
  unfold shouldNotifyUser
  cases hps : p.sports sport with
  | none =>
    rw [hps] at hpass2
    simp at hpass2
  | some sp =>
    rw [hps] at hpass2
    simp only [quietHoursGate, Bool.and_true, Bool.and_eq_true] at hpass2
    obtain ⟨he, ⟨⟨⟨hsp, htm⟩, het⟩, hgl⟩⟩ := hpass2
    rw [hqh]
    simp only [he, hsp, htm, het, hgl, Bool.true_and]
    exact quietHoursGate_false_iff qh t hen

/-- Witness for the amended C4: on the 22:00-to-08:00 window, 23:30 satisfies
the closed-window condition and is suppressed. -/
theorem quiet_hours_closed_window_witness :
    (quietHourPrefs.quietHours =
        some { enabled := true, start := "22:00", endTime := "08:00" } ∧
      shouldNotifyUser { quietHourPrefs with quietHours := none } Sport.NBA
        EventType.GAME_START none ("23:30") = true) ∧
    (shouldNotifyUser quietHourPrefs Sport.NBA EventType.GAME_START none
        ("23:30") = false ↔
      (if jsStrLt ("08:00") ("22:00") = true
       then (!(jsStrLt ("23:30") ("22:00")) || !(jsStrLt ("08:00") ("23:30"))) = true
       else (!(jsStrLt ("23:30") ("22:00")) && !(jsStrLt ("08:00") ("23:30"))) = true)) := by
  refine ⟨⟨rfl, by decide⟩, ?_⟩
  exact quiet_hours_closed_window quietHourPrefs Sport.NBA EventType.GAME_START
    none ("23:30") { enabled := true, start := "22:00", endTime := "08:00" }
    rfl rfl (by decide)

/-- C5: rivalry mode is exclusive.  Whenever a sport configuration has a
(truthy) favorite team and a rival list and the event carries its two
participant codes, `shouldNotifyUser` returns true only if one participant is
the favorite and the other is a listed rival (either orientation), whatever
the legacy followed-team list and the remaining settings say; concretely, a
subscriber with favorite LAL and rivals [BOS] passes for LAL vs BOS and fails
for LAL vs MIA. -/
theorem rivalry_exclusive :
    (∀ (p : UserPreferences) (sport : Sport) (eventType : EventType)
        (ts : List String) (t : String) (sp : SportPrefs) (fav : String)
        (rivals : List String),
      p.sports sport = some sp → sp.favoriteTeam = some fav → fav ≠ "" →
      sp.rivalTeams = some rivals →
      shouldNotifyUser p sport eventType (some ts) t = true →
      ((ts.get? 0 = some fav ∧ ∃ r ∈ rivals, ts.get? 1 = some r) ∨
       (ts.get? 1 = some fav ∧ ∃ r ∈ rivals, ts.get? 0 = some r))) ∧
    shouldNotifyUser rivalryPrefs Sport.NBA EventType.GAME_START
        (some [("LAL"), ("BOS")]) ("12:00") = true ∧
    shouldNotifyUser rivalryPrefs Sport.NBA EventType.GAME_START
        (some [("LAL"), ("MIA")]) ("12:00") = false := by
  refine ⟨?_, by decide, by decide⟩
  intro p sport eventType ts t sp fav rivals hps hfav hne hriv hok
  simp only [shouldNotifyUser, hps, Bool.and_eq_true] at hok
  obtain ⟨-, ⟨⟨⟨-, htm⟩, -⟩, -⟩, -⟩ := hok
  simp only [teamMatchGate, hfav, hriv] at htm
  rw [if_neg hne] at htm
  simp only [Bool.or_eq_true, Bool.and_eq_true, beq_iff_eq] at htm
  rcases htm with ⟨h1, h2⟩ | ⟨h1, h2⟩
  · cases haw : ts.get? 1 with
    | none => rw [haw] at h2; exact absurd h2 (by simp)
    | some a =>
      rw [haw] at h2
      refine Or.inl ⟨h1, a, ?_, rfl⟩
      simpa using h2
  · cases hhw : ts.get? 0 with
    | none => rw [hhw] at h2; exact absurd h2 (by simp)
    | some a =>
      rw [hhw] at h2
      refine Or.inr ⟨h1, a, ?_, rfl⟩
      simpa using h2

/-- Witness for C5: at the LAL-favorite, BOS-rival configuration with the
participant pair [LAL, BOS], the rivalry-matchup conclusion holds. -/
theorem rivalry_exclusive_witness :
    (([("LAL"), ("BOS")] : List String).get? 0 = some ("LAL") ∧
      ∃ r ∈ [("BOS")], ([("LAL"), ("BOS")] : List String).get? 1 = some r) ∨
    (([("LAL"), ("BOS")] : List String).get? 1 = some ("LAL") ∧
      ∃ r ∈ [("BOS")], ([("LAL"), ("BOS")] : List String).get? 0 = some r) :=
  rivalry_exclusive.1 rivalryPrefs Sport.NBA EventType.GAME_START
    [("LAL"), ("BOS")] ("12:00")
    { enabled := true, favoriteTeam := some ("LAL"), rivalTeams := some [("BOS")] }
    ("LAL") [("BOS")] (by decide) rfl (by decide) rfl (by decide)

lemma toBatchesAux_flatten :
    ∀ (fuel : Nat) (l : List String), l.length ≤ fuel →
      (toBatchesAux fuel l).flatten = l := by
  intro fuel
  induction fuel with
  | zero =>
    intro l h
    cases l with
    | nil => rfl
    | cons x xs => simp at h
  | succ n ih =>
    intro l h
    cases l with
    | nil => rfl
    | cons x xs =>
      show ((x :: xs).take 500 :: toBatchesAux n ((x :: xs).drop 500)).flatten = x :: xs
      rw [List.flatten_cons]
      rw [ih _ (by
        simp only [List.length_drop, List.length_cons] at *
        omega)]
      exact List.take_append_drop 500 (x :: xs)

lemma toBatchesAux_length :
    ∀ (fuel : Nat) (l : List String), l.length ≤ fuel →
      (toBatchesAux fuel l).length = (l.length + 499) / 500 := by
  intro fuel
  induction fuel with
  | zero =>
    intro l h
    cases l with
    | nil => simp [toBatchesAux]
    | cons x xs => simp at h
  | succ n ih =>
    intro l h
    cases l with
    | nil => simp [toBatchesAux]
    | cons x xs =>
      show (toBatchesAux n ((x :: xs).drop 500)).length + 1 =
        ((x :: xs).length + 499) / 500
      rw [ih _ (by
        simp only [List.length_drop, List.length_cons] at *
        omega)]
      simp only [List.length_drop, List.length_cons]
      omega

lemma toBatchesAux_size :
    ∀ (fuel : Nat) (l : List String), ∀ b ∈ toBatchesAux fuel l, b.length ≤ 500 := by
  intro fuel
  induction fuel with
  | zero => intro l b hb; simp [toBatchesAux] at hb
  | succ n ih =>
    intro l b hb
    cases l with
    | nil => simp [toBatchesAux] at hb
    | cons x xs =>
      rcases List.mem_cons.mp hb with hb | hb
      · rw [hb]
        exact List.length_take_le 500 (x :: xs)
      · exact ih _ b hb

lemma foldl_dispatchStep_invalid (gateway : List String → BatchResponse) :
    ∀ (batches : List (List String)) (acc : BatchOutcome),
      (batches.foldl (dispatchStep gateway) acc).invalidTokens =
        acc.invalidTokens ++
          (batches.map fun b => collectInvalid b (gateway b)).flatten := by
  intro batches
  induction batches with
  | nil => intro acc; simp
  | cons b bs ih =>
    intro acc
    simp only [List.foldl_cons, List.map_cons, List.flatten_cons, ih,
      dispatchStep, List.append_assoc]

lemma enumFrom_filterMap_get (cond : SendResponse → Bool) (batch : List String) :
    ∀ (rs : List SendResponse) (k : Nat), k + rs.length ≤ batch.length →
      ((List.enumFrom k rs).filterMap fun p =>
          if cond p.2 then batch.get? p.1 else none) =
        ((batch.drop k).zip rs).filterMap fun q =>
          if cond q.2 then some q.1 else none := by
  intro rs
  induction rs with
  | nil => intro k hk; simp
  | cons r rs ih =>
    intro k hk
    have hk1 : k < batch.length := by
      simp only [List.length_cons] at hk
      omega
    rw [List.drop_eq_getElem_cons hk1, List.enumFrom_cons, List.zip_cons_cons,
      List.filterMap_cons, List.filterMap_cons]
    have hget : batch.get? k = some batch[k] := by
      rw [List.get?_eq_get hk1]
      rfl
    have hrest := ih (k + 1) (by
      simp only [List.length_cons] at hk
      omega)
    cases hcond : cond r
    · simp only [hcond]
      exact hrest
    · simp only [hcond, hget, if_pos]
      rw [hrest]

lemma collectInvalid_eq_reported {batch : List String} {response : BatchResponse}
    (hwf : wellFormedResponse batch response) :
    collectInvalid batch response =
      (batch.zip response.responses).filterMap fun q =>
        if !q.2.success && q.2.errorCodeInvalid then some q.1 else none := by
  obtain ⟨hlen, hfc⟩ := hwf
  have hfun :
      (fun p : Nat × SendResponse =>
        if p.2.success then none
        else if p.2.errorCodeInvalid then batch.get? p.1 else none) =
      (fun p : Nat × SendResponse =>
        if (!p.2.success && p.2.errorCodeInvalid) then batch.get? p.1 else none) := by
    funext p
    cases hs : p.2.success <;> cases hi : p.2.errorCodeInvalid <;> simp [hs, hi]
  by_cases hpos : response.failureCount > 0
  · unfold collectInvalid
    rw [if_pos hpos, List.enum]
    rw [hfun]
    have := enumFrom_filterMap_get
      (fun r => !r.success && r.errorCodeInvalid) batch response.responses 0
      (by omega)
    simpa using this
  · unfold collectInvalid
    rw [if_neg hpos]
    symm
    rw [List.filterMap_eq_nil_iff]
    intro q hq
    have hq2 : q.2 ∈ response.responses := (List.of_mem_zip hq).2
    have hall : ∀ r ∈ response.responses, ¬(!r.success) = true := by
      rw [← List.countP_eq_zero]
      omega
    have := hall q.2 hq2
    simp only [Bool.not_eq_true'] at this
    simp [this]

/-- C8: `sendBatchNotifications` splits the token list into ceil(n/500)
consecutive batches of at most 500 addresses whose concatenation is the
original list, submits exactly those batches, returns as `invalidTokens` the
concatenation (union) of the addresses each batch's gateway response reported
as permanently invalid (given per-batch responses that are well-formed in the
FCM sense), and returns the zero outcome with no gateway submission for an
empty token list. -/
theorem batch_dispatch (gateway : List String → BatchResponse)
    (tokens : List String)
    (hwf : ∀ b ∈ toBatches tokens, wellFormedResponse b (gateway b)) :
    ((sendBatchNotifications gateway tokens).2).flatten = tokens ∧
    (∀ b ∈ (sendBatchNotifications gateway tokens).2, b.length ≤ 500) ∧
    (sendBatchNotifications gateway tokens).2.length =
      (tokens.length + 499) / 500 ∧
    (sendBatchNotifications gateway tokens).1.invalidTokens =
      ((sendBatchNotifications gateway tokens).2.map
        (reportedInvalid gateway)).flatten ∧
    (tokens = [] → sendBatchNotifications gateway tokens =
      ({ successCount := 0, failureCount := 0, invalidTokens := [] }, [])) := by
  by_cases hnil : tokens.length = 0
  · have : tokens = [] := List.length_eq_zero.mp hnil
    subst this
    refine ⟨rfl, ?_, rfl, rfl, fun _ => rfl⟩
    intro b hb
    simp [sendBatchNotifications] at hb
  · have hsend : sendBatchNotifications gateway tokens =
        (((toBatches tokens).foldl (dispatchStep gateway)
          { successCount := 0, failureCount := 0, invalidTokens := [] }),
         toBatches tokens) := by
      unfold sendBatchNotifications
      rw [if_neg hnil]
    rw [hsend]
    refine ⟨toBatchesAux_flatten _ _ le_rfl, ?_, toBatchesAux_length _ _ le_rfl, ?_, ?_⟩
    · intro b hb
      exact toBatchesAux_size _ _ b hb
    · rw [foldl_dispatchStep_invalid]
      simp only [List.nil_append]
      congr 1
      apply List.map_congr_left
      intro b hb
      exact collectInvalid_eq_reported (hwf b hb)
    · intro h
      exact absurd (congrArg List.length h) (by simpa using hnil)

/-- Witness for C8: a 600-address audience with an all-success gateway is
split into exactly two submitted batches whose count matches ceil(600/500). -/
theorem batch_dispatch_witness :
    (∀ b ∈ toBatches (List.replicate 600 ("t")),
      wellFormedResponse b (okGateway b)) ∧
    (sendBatchNotifications okGateway (List.replicate 600 ("t"))).2.length =
      ((List.replicate 600 ("t") : List String).length + 499) / 500 ∧
    (sendBatchNotifications okGateway (List.replicate 600 ("t"))).2.length = 2 := by
  have hwf : ∀ b ∈ toBatches (List.replicate 600 ("t")),
      wellFormedResponse b (okGateway b) := by
    intro b hb
    constructor
    · simp [okGateway]
    · show (0 : Nat) = _
      symm
      rw [List.countP_eq_zero]
      intro r hr
      rcases List.mem_map.mp hr with ⟨a, -, rfl⟩
      decide
  have hlen := (batch_dispatch okGateway (List.replicate 600 ("t")) hwf).2.2.1
  refine ⟨hwf, hlen, ?_⟩
  rw [hlen, List.length_replicate]

lemma storeGet_set (st : EventStore) (e : Event) (id : String) :
    storeGet (storeSet st e) id = if e.id = id then some e else storeGet st id := by
  by_cases h : e.id = id
  · rw [if_pos h]
    unfold storeGet storeSet
    rw [List.find?_cons_of_pos _ (by simp [h])]
    rfl
  · rw [if_neg h]
    unfold storeGet storeSet
    rw [List.find?_cons_of_neg _ (by simp [h])]

lemma storeGet_mark_preserves {st : EventStore} {i id : String} {now : Nat}
    {ev : Event} (h : storeGet st id = some ev) (hn : ev.notified = true) :
    ∃ ev2, storeGet (storeMarkNotified st i now) id = some ev2 ∧
      ev2.notified = true := by
  induction st with
  | nil => simp [storeGet] at h
  | cons kv st ih =>
    by_cases hk : kv.1 = id
    · have hfound : storeGet (kv :: st) id = some kv.2 := by
        unfold storeGet
        rw [List.find?_cons_of_pos _ (by simp [hk])]
        rfl
      rw [hfound] at h
      obtain rfl : kv.2 = ev := Option.some.inj h
      by_cases hi : kv.1 = i
      · refine ⟨{ kv.2 with notified := true, notifiedAt := some now }, ?_, rfl⟩
        unfold storeGet storeMarkNotified
        simp only [List.map_cons]
        rw [if_pos (by simp [hi])]
        rw [List.find?_cons_of_pos _ (by simp [hk])]
        rfl
      · refine ⟨kv.2, ?_, hn⟩
        unfold storeGet storeMarkNotified
        simp only [List.map_cons]
        rw [if_neg (by simp [hi])]
        rw [List.find?_cons_of_pos _ (by simp [hk])]
        rfl
    · have htail : storeGet st id = some ev := by
        unfold storeGet at h ⊢
        rw [List.find?_cons_of_neg _ (by simp [hk])] at h
        exact h
      obtain ⟨ev2, h2, hn2⟩ := ih htail
      refine ⟨ev2, ?_, hn2⟩
      unfold storeGet storeMarkNotified at h2 ⊢
      simp only [List.map_cons]
      by_cases hi : kv.1 = i
      · rw [if_pos (by simp [hi])]
        rw [List.find?_cons_of_neg _ (by simp [hk])]
        exact h2
      · rw [if_neg (by simp [hi])]
        rw [List.find?_cons_of_neg _ (by simp [hk])]
        exact h2

lemma processOne_skip {store : EventStore} {now : Nat} {e : Event}
    {o : EventOutcome} (h : (storeGet store e.id).map Event.notified = some true)
    (hget : o.getOk = true) :
    processOne store now e o = (store, [EngineAction.getEvent e.id], 0) := by
  unfold processOne
  rw [if_neg (by simp [hget]), if_pos h]

lemma processOne_save_fail {store : EventStore} {now : Nat} {e : Event}
    {o : EventOutcome}
    (h : (storeGet store e.id).map Event.notified ≠ some true)
    (hget : o.getOk = true) (hsv : o.saveOk = false) :
    processOne store now e o =
      (store, [EngineAction.getEvent e.id, EngineAction.saveEvent e.id], 0) := by
  unfold processOne
  rw [if_neg (by simp [hget]), if_neg h, if_pos hsv]

lemma processOne_preserves_notified {store : EventStore} (now : Nat) (e : Event)
    (o : EventOutcome) {id : String} {ev : Event}
    (h : storeGet store id = some ev) (hn : ev.notified = true) :
    ∃ ev2, storeGet (processOne store now e o).1 id = some ev2 ∧
      ev2.notified = true := by
  by_cases hid : e.id = id
  · subst hid
    cases hgo : o.getOk with
    | false =>
      unfold processOne
      rw [if_pos hgo]
      exact ⟨ev, h, hn⟩
    | true =>
      rw [processOne_skip (by rw [h]; simp [hn]) hgo]
      exact ⟨ev, h, hn⟩
  · have hset : storeGet (storeSet store e) id = some ev := by
      rw [storeGet_set, if_neg hid]
      exact h
    simp only [processOne]
    split
    · exact ⟨ev, h, hn⟩
    · split
      · exact ⟨ev, h, hn⟩
      · split
        · exact ⟨ev, h, hn⟩
        · split
          · exact ⟨ev, hset, hn⟩
          · split
            · exact ⟨ev, hset, hn⟩
            · split
              · exact ⟨ev, hset, hn⟩
              · split
                · exact storeGet_mark_preserves hset hn
                · exact ⟨ev, hset, hn⟩

lemma processOne_actions_sub (store : EventStore) (now : Nat) (e : Event)
    (o : EventOutcome) :
    ∀ a ∈ (processOne store now e o).2.1,
      a ∈ [EngineAction.getEvent e.id, EngineAction.saveEvent e.id,
           EngineAction.resolveAudience e.id, EngineAction.dispatch e.id,
           EngineAction.markNotified e.id] := by
  simp only [processOne]
  split
  · intro a ha
    simp only [List.mem_cons, List.not_mem_nil, or_false] at ha ⊢
    tauto
  · split
    · intro a ha
      simp only [List.mem_cons, List.not_mem_nil, or_false] at ha ⊢
      tauto
    · split
      · intro a ha
        simp only [List.mem_cons, List.not_mem_nil, or_false] at ha ⊢
        tauto
      · split
        · intro a ha
          simp only [List.mem_cons, List.not_mem_nil, or_false] at ha ⊢
          tauto
        · split
          · intro a ha
            simp only [List.mem_cons, List.not_mem_nil, or_false] at ha ⊢
            tauto
          · split
            · intro a ha
              simp only [List.mem_cons, List.not_mem_nil, or_false] at ha ⊢
              tauto
            · split
              · intro a ha
                simp only [List.mem_cons, List.not_mem_nil, or_false] at ha ⊢
                tauto
              · intro a ha
                simp only [List.mem_cons, List.not_mem_nil, or_false] at ha ⊢
                tauto

lemma processOne_action_id {store : EventStore} {now : Nat} {e : Event}
    {o : EventOutcome} {a : EngineAction}
    (ha : a ∈ (processOne store now e o).2.1) : EngineAction.id a = e.id := by
  have := processOne_actions_sub store now e o a ha
  simp only [List.mem_cons, List.not_mem_nil, or_false] at this
  rcases this with rfl | rfl | rfl | rfl | rfl <;> rfl

lemma processOne_one_get (store : EventStore) (now : Nat) (e : Event)
    (o : EventOutcome) :
    (processOne store now e o).2.1.countP EngineAction.isGet = 1 := by
  simp only [processOne]
  split
  · simp [List.countP_cons, EngineAction.isGet]
  · split
    · simp [List.countP_cons, EngineAction.isGet]
    · split
      · simp [List.countP_cons, EngineAction.isGet]
      · split
        · simp [List.countP_cons, EngineAction.isGet]
        · split
          · simp [List.countP_cons, EngineAction.isGet]
          · split
            · simp [List.countP_cons, EngineAction.isGet]
            · split
              · simp [List.countP_cons, EngineAction.isGet]
              · simp [List.countP_cons, EngineAction.isGet]

lemma processEvents_preserves_notified :
    ∀ (items : List (Event × EventOutcome)) (store : EventStore) (now : Nat)
      {id : String} {ev : Event},
      storeGet store id = some ev → ev.notified = true →
      ∃ ev2, storeGet (processEvents store now items).1 id = some ev2 ∧
        ev2.notified = true := by
  intro items
  induction items with
  | nil => intro store now id ev h hn; exact ⟨ev, h, hn⟩
  | cons x rest ih =>
    obtain ⟨e, o⟩ := x
    intro store now id ev h hn
    obtain ⟨ev1, h1, hn1⟩ :=
      processOne_preserves_notified now e o h hn
    exact ih _ now h1 hn1

/-- C1: at-most-once.  If the stored record for an identifier is already
notified, then across an entire `processEvents` run the only engine action
concerning that identifier is the ledger lookup: no save, no audience
resolution, no dispatch, and no further notified-marking ever happens for
it. -/
theorem notified_skip_at_most_once :
    ∀ (store : EventStore) (now : Nat) (items : List (Event × EventOutcome))
      (id : String) (ev : Event),
      storeGet store id = some ev → ev.notified = true →
      ∀ a ∈ (processEvents store now items).2.1,
        EngineAction.id a = id → a = EngineAction.getEvent id := by
  intro store now items
  induction items generalizing store with
  | nil =>
    intro id ev h hn a ha
    simp [processEvents] at ha
  | cons x rest ih =>
    obtain ⟨e, o⟩ := x
    intro id ev h hn a ha haid
    simp only [processEvents, List.mem_append] at ha
    rcases ha with ha | ha
    · by_cases hid : e.id = id
      · subst hid
        cases hgo : o.getOk with
        | false =>
          unfold processOne at ha
          rw [if_pos hgo] at ha
          simpa using ha
        | true =>
          rw [processOne_skip (by rw [h]; simp [hn]) hgo] at ha
          simpa using ha
      · exact absurd ((processOne_action_id ha).symm.trans haid) hid
    · obtain ⟨ev1, h1, hn1⟩ :=
        processOne_preserves_notified now e o h hn
      exact ih _ id ev1 h1 hn1 a ha haid

/-- Witness for C1: with a store in which the event is already notified, a
run that processes that same event performs nothing but the ledger lookup for
its identifier. -/
theorem notified_skip_at_most_once_witness :
    (storeGet notifiedStore ("nba_1_GAME_START") = some notifiedRecord ∧
      notifiedRecord.notified = true) ∧
    (∀ a ∈ (processEvents notifiedStore 9 [(demoEvent, {})]).2.1,
      EngineAction.id a = ("nba_1_GAME_START") →
        a = EngineAction.getEvent ("nba_1_GAME_START")) := by
  refine ⟨⟨by decide, by decide⟩, ?_⟩
  exact notified_skip_at_most_once notifiedStore 9 [(demoEvent, {})]
    ("nba_1_GAME_START") notifiedRecord (by decide) (by decide)

/-- C9: a failed event-record save isolates the event without aborting the
cycle.  (1) When the save throws for a not-yet-notified event, that event's
iteration performs only the lookup and the failed save — no dispatch and no
notified-marking — and leaves the store unchanged with zero notifications
counted.  (2) Processing decomposes over list append: the events after any
prefix are processed exactly as if started from the prefix's resulting store,
so no per-event failure stops the rest.  (3) Every event of the batch gets
its ledger lookup, whatever the outcomes. -/
theorem save_failure_isolated :
    (∀ (store : EventStore) (now : Nat) (e : Event) (o : EventOutcome),
      (storeGet store e.id).map Event.notified ≠ some true →
      o.getOk = true → o.saveOk = false →
      processEvents store now [(e, o)] =
        (store, [EngineAction.getEvent e.id, EngineAction.saveEvent e.id], 0)) ∧
    (∀ (store : EventStore) (now : Nat) (l₁ l₂ : List (Event × EventOutcome)),
      processEvents store now (l₁ ++ l₂) =
        ((processEvents (processEvents store now l₁).1 now l₂).1,
         (processEvents store now l₁).2.1 ++
           (processEvents (processEvents store now l₁).1 now l₂).2.1,
         (processEvents store now l₁).2.2 +
           (processEvents (processEvents store now l₁).1 now l₂).2.2)) ∧
    (∀ (store : EventStore) (now : Nat) (items : List (Event × EventOutcome)),
      (processEvents store now items).2.1.countP EngineAction.isGet =
        items.length) := by
  refine ⟨?_, ?_, ?_⟩
  · intro store now e o h hget hsv
    simp only [processEvents, processOne_save_fail h hget hsv]
    simp
  · intro store now l₁ l₂
    induction l₁ generalizing store with
    | nil => simp [processEvents]
    | cons x l₁ ih =>
      obtain ⟨e, o⟩ := x
      show processEvents store now ((e, o) :: (l₁ ++ l₂)) = _
      simp only [processEvents]
      rw [ih]
      simp [List.append_assoc, Nat.add_assoc]
  · intro store now items
    induction items generalizing store with
    | nil => rfl
    | cons x rest ih =>
      obtain ⟨e, o⟩ := x
      simp only [processEvents, List.countP_append, processOne_one_get,
        List.length_cons, ih]
      omega

/-- Witness for C9: a save failure on an empty store performs only the lookup
and the failed save and leaves the store untouched. -/
theorem save_failure_isolated_witness :
    ((storeGet ([] : EventStore) demoEvent.id).map Event.notified ≠ some true ∧
      ({ saveOk := false } : EventOutcome).getOk = true ∧
      ({ saveOk := false } : EventOutcome).saveOk = false) ∧
    processEvents [] 9 [(demoEvent, { saveOk := false })] =
      ([], [EngineAction.getEvent demoEvent.id,
            EngineAction.saveEvent demoEvent.id], 0) := by
  refine ⟨⟨by decide, rfl, rfl⟩, ?_⟩
  exact save_failure_isolated.1 [] 9 demoEvent { saveOk := false }
    (by decide) rfl rfl

end SportsNotif
